import Mathlib

/-!
A shallow embedding of the dock engine of `swaydgets` (src/dock.rs, src/config.rs)
and proofs of its specified properties: window-tree extraction, the listener
loop, the shared registry update, the visibility (show/hide) behaviour, the
edge/orientation resolution, and the renderer.
-/

namespace Swaydgets

/-- swayipc node types (only `Con` is inspected by the dock code). -/
inductive NodeType
  | root
  | output
  | con
  | floatingCon
  | workspace
  | dockarea
deriving DecidableEq

/-- The `class` field of swayipc `WindowProperties` (the only field the dock reads). -/
structure WindowProperties where
  class_ : Option String
deriving DecidableEq

/-- swayipc `Node`: the compositor window tree (the fields read by dock.rs). -/
inductive Node where
  | mk (id : Int) (node_type : NodeType) (name : Option String)
       (app_id : Option String) (window_properties : Option WindowProperties)
       (focused : Bool) (nodes : List Node) (floating_nodes : List Node)

def Node.id : Node → Int
  | .mk i _ _ _ _ _ _ _ => i

def Node.node_type : Node → NodeType
  | .mk _ t _ _ _ _ _ _ => t

def Node.name : Node → Option String
  | .mk _ _ n _ _ _ _ _ => n

def Node.app_id : Node → Option String
  | .mk _ _ _ a _ _ _ _ => a

def Node.window_properties : Node → Option WindowProperties
  | .mk _ _ _ _ w _ _ _ => w

def Node.focused : Node → Bool
  | .mk _ _ _ _ _ f _ _ => f

def Node.nodes : Node → List Node
  | .mk _ _ _ _ _ _ ns _ => ns

def Node.floating_nodes : Node → List Node
  | .mk _ _ _ _ _ _ _ fs => fs

/-- `WindowInfo` from dock.rs. -/
structure WindowInfo where
  id : Int
  title : String
  app_id : String
  focused : Bool
deriving DecidableEq

/-- The app-window test of `extract_windows`:
`node.node_type == NodeType::Con && !node.name.is_none() && (node.app_id.is_some() || node.window_properties.is_some())`. -/
def isAppWindow (n : Node) : Bool :=
  n.node_type == NodeType.con && !n.name.isNone &&
    (n.app_id.isSome || n.window_properties.isSome)

/-- The record pushed by `extract_windows` for an app-window node: title from
`name.unwrap_or_default()`, app id from `app_id` falling back to
`window_properties.class` then to the empty string. -/
def windowInfoOf (n : Node) : WindowInfo :=
  { id := n.id
    title := n.name.getD ""
    app_id := n.app_id.getD ((n.window_properties.bind WindowProperties.class_).getD "")
    focused := n.focused }

mutual

/-- `extract_windows` from dock.rs: push the node's record when it is an app
window, then recurse over `nodes`, then over `floating_nodes`, threading the
accumulated vector. -/
def extract_windows : Node → List WindowInfo → List WindowInfo
  | node@(.mk _ _ _ _ _ _ ns fs), windows =>
      extract_windows_list fs
        (extract_windows_list ns
          (if isAppWindow node then windows ++ [windowInfoOf node] else windows))

/-- The `for child in ...` loops of `extract_windows`. -/
def extract_windows_list : List Node → List WindowInfo → List WindowInfo
  | [], windows => windows
  | c :: rest, windows => extract_windows_list rest (extract_windows c windows)

end

mutual

/-- Modelled from the spec's traversal-order words (§4.1/§8): depth-first,
a node's ordinary children before its floating children, each subtree fully
visited before moving to the next sibling. -/
def dfsOrder : Node → List Node
  | node@(.mk _ _ _ _ _ _ ns fs) => node :: (dfsOrderList ns ++ dfsOrderList fs)

/-- Depth-first order of a list of sibling subtrees. -/
def dfsOrderList : List Node → List Node
  | [] => []
  | c :: rest => dfsOrder c ++ dfsOrderList rest

end

/-- The record a single node contributes to the extracted list, if any. -/
def recordOf (n : Node) : Option WindowInfo :=
  if isAppWindow n then some (windowInfoOf n) else none

/-- Modelled from the spec's window definition (§4.1): type is container,
name present (non-null), and the node carries an application identifier or
window-manager-reported window properties. -/
def claimIsAppWindow (n : Node) : Prop :=
  n.node_type = NodeType.con ∧ n.name ≠ none ∧
    (n.app_id ≠ none ∨ n.window_properties ≠ none)

instance (n : Node) : Decidable (claimIsAppWindow n) := by
  unfold claimIsAppWindow; infer_instance

/-- `update_window_list` from dock.rs: on a successful `get_tree()` the
registry is replaced wholesale by the freshly extracted list; on a failed
fetch nothing happens at all. -/
def update_window_list (tree_result : Except String Node)
    (windows : List WindowInfo) : List WindowInfo :=
  match tree_result with
  | .ok tree => extract_windows tree []
  | .error _ => windows

/-- One iteration's environment in the listener loop: whether the received
event was `Ok`, whether `Connection::new()` succeeded for it, and what
`get_tree()` on that fresh connection returned. -/
structure EventStep where
  event_ok : Bool
  connect_ok : Bool
  tree_result : Except String Node

/-- How the listener's event loop ends: normally (subscription stream ended)
or by a thread panic, in both cases with the registry contents at that point. -/
inductive ListenerOutcome where
  | completed (registry : List WindowInfo)
  | panicked (registry : List WindowInfo)

/-- The event loop of the listener thread in `create_dock`: for every `Ok`
event it runs `Connection::new().expect("Failed to connect to Sway")` — a
connection failure panics the thread — and then `update_window_list`; an
`Err` event is skipped and the loop continues. -/
def listenLoop (registry : List WindowInfo) : List EventStep → ListenerOutcome
  | [] => .completed registry
  | step :: rest =>
    if step.event_ok then
      if step.connect_ok then
        listenLoop (update_window_list step.tree_result registry) rest
      else
        .panicked registry
    else
      listenLoop registry rest

/-- gdk crossing details (`gdk::NotifyType`) as read by the leave handler. -/
inductive NotifyType where
  | ancestor
  | virtualCrossing
  | inferior
  | nonlinear
  | nonlinearVirtual
  | unknown
deriving DecidableEq

/-- The crossing-detail test of the `connect_leave_notify_event` handler. -/
def qualifyingDetail (d : NotifyType) : Bool :=
  d == NotifyType.nonlinear || d == NotifyType.nonlinearVirtual ||
    d == NotifyType.ancestor

/-- The visibility-relevant state of the dock: whether the dock window is
shown and the deadlines of all `glib::timeout_add_local` hide callbacks
currently scheduled. -/
structure DockState where
  dockVisible : Bool
  pendingHides : List Nat
deriving DecidableEq

/-- Pointer events the dock reacts to: the detector's enter-notify and the
dock window's leave-notify with its crossing detail. -/
inductive DockEvent where
  | enterDetector
  | leaveDock (detail : NotifyType)
deriving DecidableEq

/-- `dock_window.hide()` runs in `create_dock` before any pointer event. -/
def initialDockState : DockState := ⟨false, []⟩

/-- The two pointer handlers of `create_dock`: entering the detector calls
`show_all` on the dock window; leaving the dock window with a qualifying
crossing detail schedules an unconditional `hide` `hide_timeout` ms later,
any other detail does nothing. Neither handler cancels an already scheduled
hide callback. -/
def handleEvent (hide_timeout now : Nat) (s : DockState) : DockEvent → DockState
  | .enterDetector => { s with dockVisible := true }
  | .leaveDock detail =>
    if qualifyingDetail detail then
      { s with pendingHides := s.pendingHides ++ [now + hide_timeout] }
    else
      s

/-- Fire every scheduled hide callback whose deadline has arrived by `now`:
each fired callback hides the dock window and returns `false`, so it is not
rescheduled. -/
def fireDue (now : Nat) (s : DockState) : DockState :=
  if s.pendingHides.any (fun dl => decide (dl ≤ now)) then
    { dockVisible := false
      pendingHides := s.pendingHides.filter (fun dl => decide (now < dl)) }
  else
    s

/-- Run a time-ordered trace of pointer events; before each event is handled,
the timers due at that moment fire. -/
def runTrace (hide_timeout : Nat) : List (Nat × DockEvent) → DockState → DockState
  | [], s => s
  | (t, e) :: rest, s =>
    runTrace hide_timeout rest (handleEvent hide_timeout t (fireDue t s) e)

/-- The dock state observed at time `t`: all events up to `t` handled and all
timers due by `t` fired. -/
def stateAt (hide_timeout : Nat) (trace : List (Nat × DockEvent)) (t : Nat) :
    DockState :=
  fireDue t
    (runTrace hide_timeout (trace.filter (fun p => decide (p.1 ≤ t)))
      initialDockState)

/-- gtk `Orientation` (the two variants used by dock.rs). -/
inductive Orientation where
  | Horizontal
  | Vertical
deriving DecidableEq

/-- gtk_layer_shell `Edge`. -/
inductive Edge where
  | Left
  | Right
  | Top
  | Bottom
deriving DecidableEq

/-- `EdgeConfig` from config.rs. -/
inductive EdgeConfig where
  | Left
  | Right
  | Top
  | Bottom
deriving DecidableEq

/-- `EdgeConfig::to_edge` from config.rs. -/
def EdgeConfig.to_edge : EdgeConfig → Edge
  | .Left => .Left
  | .Right => .Right
  | .Top => .Top
  | .Bottom => .Bottom

/-- The orientation `create_dock` derives from the configured edge. -/
def orientationFor (edge : EdgeConfig) : Orientation :=
  match edge with
  | .Left | .Right => .Vertical
  | .Top | .Bottom => .Horizontal

/-- The `(default_width, default_height)` pair `create_dock` derives from the
orientation. -/
def dimensionsFor (o : Orientation) : Int × Int :=
  match o with
  | .Horizontal => (800, 60)
  | .Vertical => (60, 800)

/-- The two additional anchors `create_dock` sets for the configured edge
(both on the dock window and on the detection window). -/
def extraAnchors (edge : EdgeConfig) : List Edge :=
  match edge with
  | .Top | .Bottom => [.Left, .Right]
  | .Left | .Right => [.Top, .Bottom]

/-- One rendered launcher button: resolved icon name, label text, and the
window id its click handler focuses via `[con_id=<id>] focus`. -/
structure DockEntry where
  icon : String
  label : String
  window_id : Int
deriving DecidableEq

/-- Substring containment, the semantics of Rust `str::contains`. -/
def strContainsSub (s pat : String) : Bool :=
  s.toList.tails.any (fun tl => pat.toList.isPrefixOf tl)

/-- Character-wise model of Rust `String::to_lowercase` (every identifier the
dock compares is ASCII, where the two agree). -/
def lowerString (s : String) : String :=
  String.mk (s.toList.map Char.toLower)

/-- `get_icon_for_app` from dock.rs. -/
def get_icon_for_app (app_id : String) : String :=
  let id := lowerString app_id
  if strContainsSub id "firefox" then "firefox"
  else if strContainsSub id "chrome" then "google-chrome"
  else if strContainsSub id "terminal" then "terminal"
  else if strContainsSub id "code" then "visual-studio-code"
  else "application-x-executable"

/-- The button built by `update_dock_ui` for one window record. -/
def entryOf (w : WindowInfo) : DockEntry :=
  ⟨get_icon_for_app w.app_id, w.title, w.id⟩

/-- The per-record loop of `update_dock_ui`: records with an empty title are
skipped, every other record packs exactly one button. -/
def buildEntries (windows : List WindowInfo) : List DockEntry :=
  windows.foldl (fun acc w => if w.title.isEmpty then acc else acc ++ [entryOf w]) []

/-- Result of `windows.lock()` as observed by the renderer. -/
inductive LockResult (α : Type) where
  | ok (value : α)
  | poisoned

/-- `update_dock_ui` from dock.rs, as a function on the dock box's children:
it removes every existing child first, then takes the lock; if the lock is
poisoned it returns (leaving the box cleared), otherwise it rebuilds the
strip from the snapshot. The orientation only affects per-button layout, not
which entries exist. -/
def update_dock_ui (dock_box : List DockEntry)
    (windows : LockResult (List WindowInfo)) (orientation : Orientation) :
    List DockEntry :=
  let dock_box := []
  match windows with
  | .poisoned => dock_box
  | .ok ws => dock_box ++ buildEntries ws

mutual

theorem extract_windows_char : ∀ (t : Node) (ws : List WindowInfo),
    extract_windows t ws = ws ++ (dfsOrder t).filterMap recordOf
  | .mk i ty nm ai wp f ns fs, ws => by
    rw [extract_windows, dfsOrder]
    rw [extract_windows_list_char ns, extract_windows_list_char fs]
    simp only [List.filterMap_cons, List.filterMap_append, recordOf]
    cases h : isAppWindow (Node.mk i ty nm ai wp f ns fs) <;>
      simp [h, List.append_assoc]

theorem extract_windows_list_char : ∀ (l : List Node) (ws : List WindowInfo),
    extract_windows_list l ws = ws ++ (dfsOrderList l).filterMap recordOf
  | [], ws => by simp [extract_windows_list, dfsOrderList]
  | c :: rest, ws => by
    rw [extract_windows_list, dfsOrderList]
    rw [extract_windows_list_char rest, extract_windows_char c]
    simp [List.filterMap_append, List.append_assoc]

end

theorem isAppWindow_iff (n : Node) : isAppWindow n = true ↔ claimIsAppWindow n := by
  rcases n with ⟨i, ty, nm, ai, wp, f, ns, fs⟩
  simp [isAppWindow, claimIsAppWindow, Node.node_type, Node.name, Node.app_id,
    Node.window_properties, Option.isNone_iff_eq_none, Option.isSome_iff_ne_none,
    beq_iff_eq, and_assoc]

theorem recordOf_eq_claim (n : Node) :
    recordOf n = if claimIsAppWindow n then some (windowInfoOf n) else none := by
  unfold recordOf
  by_cases h : claimIsAppWindow n
  · rw [if_pos ((isAppWindow_iff n).mpr h), if_pos h]
  · rw [if_neg (fun hb => h ((isAppWindow_iff n).mp hb)), if_neg h]

/-- C6: extraction is a pure function of the tree (the embedding is a total
Lean function, hence deterministic: the same tree always yields the same
sequence), and the extracted sequence is, in order, the per-node records of
the depth-first traversal that visits a node's ordinary children before its
floating children and finishes each subtree before the next sibling. -/
theorem c6_extract_deterministic_dfs_order (t : Node) :
    extract_windows t [] = (dfsOrder t).filterMap recordOf := by
  rw [extract_windows_char]
  simp

/-- C5: a node contributes a record to the extracted list exactly when its
type is container, its name is present, and it has an application identifier
or window-manager-reported window properties; a node lacking both of the
latter contributes nothing. -/
theorem c5_contribution_iff (t : Node) :
    extract_windows t [] =
      (dfsOrder t).filterMap
        (fun n => if claimIsAppWindow n then some (windowInfoOf n) else none) := by
  rw [extract_windows_char, funext recordOf_eq_claim]
  simp

/-- C7: edge-to-orientation resolution is total and pure on the four edges:
Left and Right map to Vertical orientation with Top and Bottom anchors and
sizes (60, 800); Top and Bottom map to Horizontal orientation with Left and
Right anchors and sizes (800, 60); each edge yields exactly the one
tabulated combination. -/
theorem c7_edge_orientation_table :
    (orientationFor .Left = .Vertical ∧ EdgeConfig.to_edge .Left = .Left ∧
      extraAnchors .Left = [.Top, .Bottom] ∧
      dimensionsFor (orientationFor .Left) = (60, 800)) ∧
    (orientationFor .Right = .Vertical ∧ EdgeConfig.to_edge .Right = .Right ∧
      extraAnchors .Right = [.Top, .Bottom] ∧
      dimensionsFor (orientationFor .Right) = (60, 800)) ∧
    (orientationFor .Top = .Horizontal ∧ EdgeConfig.to_edge .Top = .Top ∧
      extraAnchors .Top = [.Left, .Right] ∧
      dimensionsFor (orientationFor .Top) = (800, 60)) ∧
    (orientationFor .Bottom = .Horizontal ∧ EdgeConfig.to_edge .Bottom = .Bottom ∧
      extraAnchors .Bottom = [.Left, .Right] ∧
      dimensionsFor (orientationFor .Bottom) = (800, 60)) := by
  decide

/-- C10: if the tree fetch fails the registry is left completely unchanged,
and it is replaced (wholesale, by the extraction of the fetched tree) only
when the fetch succeeds. -/
theorem c10_registry_untouched_on_fetch_failure :
    (∀ (e : String) (registry : List WindowInfo),
      update_window_list (Except.error e) registry = registry) ∧
    (∀ (tree : Node) (registry : List WindowInfo),
      update_window_list (Except.ok tree) registry = extract_windows tree []) :=
  ⟨fun _ _ => rfl, fun _ _ => rfl⟩

/-- C2 counterexample: with the subscription established, a single `Ok` event
whose fresh `Connection::new()` fails makes the listener panic (terminating
the thread) instead of skipping the event and continuing. -/
theorem c2_counterexample :
    listenLoop [] [⟨true, false, Except.error "connection refused"⟩] =
      ListenerOutcome.panicked [] := rfl

/-- C2 amended: an `Err` event is skipped and the loop continues, but a
failure to open the fresh per-event connection is not swallowed — the
`expect` call panics and the listener thread terminates at once, with the
registry left as it was. -/
theorem c2_amended_reconnect_failure_panics (registry : List WindowInfo)
    (step : EventStep) (rest : List EventStep) :
    (step.event_ok = true → step.connect_ok = false →
      listenLoop registry (step :: rest) = ListenerOutcome.panicked registry) ∧
    (step.event_ok = false →
      listenLoop registry (step :: rest) = listenLoop registry rest) := by
  constructor
  · intro hok hconn
    simp [listenLoop, hok, hconn]
  · intro hok
    simp [listenLoop, hok]

theorem c2_amended_witness :
    listenLoop [] [⟨true, false, Except.error "connection refused"⟩] =
      ListenerOutcome.panicked [] ∧
    listenLoop [] [⟨false, true, Except.error "ignored"⟩] =
      ListenerOutcome.completed [] :=
  ⟨(c2_amended_reconnect_failure_panics [] ⟨true, false, Except.error "connection refused"⟩ []).1
      rfl rfl,
    ((c2_amended_reconnect_failure_panics [] ⟨false, true, Except.error "ignored"⟩ []).2
      rfl).trans rfl⟩

/-- C3: while the dock is visible, a leave event schedules a hide (the
`PendingHide(now + hide_timeout)` transition) exactly when its crossing
detail is Nonlinear, NonlinearVirtual or Ancestor; any other detail leaves
the state untouched and schedules nothing. -/
theorem c3_leave_schedules_iff (hide_timeout now : Nat) (s : DockState)
    (d : NotifyType) (hvis : s.dockVisible = true) :
    (handleEvent hide_timeout now s (.leaveDock d) =
        { s with pendingHides := s.pendingHides ++ [now + hide_timeout] } ∧
      (d = .nonlinear ∨ d = .nonlinearVirtual ∨ d = .ancestor)) ∨
    (handleEvent hide_timeout now s (.leaveDock d) = s ∧
      ¬(d = .nonlinear ∨ d = .nonlinearVirtual ∨ d = .ancestor)) := by
  cases d <;> simp [handleEvent, qualifyingDetail]

theorem c3_witness :
    handleEvent 300 100 ⟨true, []⟩ (DockEvent.leaveDock NotifyType.nonlinear) =
      ⟨true, [400]⟩ ∧
    handleEvent 300 100 ⟨true, []⟩ (DockEvent.leaveDock NotifyType.inferior) =
      ⟨true, []⟩ := by
  constructor
  · rcases c3_leave_schedules_iff 300 100 ⟨true, []⟩ NotifyType.nonlinear rfl with
      ⟨h, _⟩ | ⟨_, hq⟩
    · exact h
    · exact absurd (Or.inl rfl) hq
  · rcases c3_leave_schedules_iff 300 100 ⟨true, []⟩ NotifyType.inferior rfl with
      ⟨_, hq⟩ | ⟨h, _⟩
    · rcases hq with h | h | h <;> cases h
    · exact h

/-- C4: after a qualifying leave at `t0` with no re-entry, exactly one hide
is scheduled, the dock stays visible strictly before the deadline
`t0 + hide_timeout`, and from the deadline on it is hidden with no callback
left — i.e. it transitions to Hidden exactly once, at the deadline. -/
theorem c4_hide_at_deadline (hide_timeout t0 t : Nat) (d : NotifyType)
    (hd : qualifyingDetail d = true) :
    (t0 ≤ t → t < t0 + hide_timeout →
      stateAt hide_timeout [(0, .enterDetector), (t0, .leaveDock d)] t =
        ⟨true, [t0 + hide_timeout]⟩) ∧
    (t0 + hide_timeout ≤ t →
      stateAt hide_timeout [(0, .enterDetector), (t0, .leaveDock d)] t =
        ⟨false, []⟩) := by
  have e1 : decide ((0 : Nat) ≤ t) = true := decide_eq_true (Nat.zero_le t)
  constructor
  · intro h1 h2
    have e2 : decide (t0 ≤ t) = true := decide_eq_true h1
    have e3 : decide (t0 + hide_timeout ≤ t) = false := decide_eq_false (by omega)
    have e4 : decide (t < t0 + hide_timeout) = true := decide_eq_true h2
    simp [stateAt, List.filter, runTrace, fireDue, handleEvent, initialDockState,
      hd, e1, e2, e3, e4]
  · intro h1
    have e2 : decide (t0 ≤ t) = true := decide_eq_true (by omega)
    have e3 : decide (t0 + hide_timeout ≤ t) = true := decide_eq_true h1
    have e4 : decide (t < t0 + hide_timeout) = false := decide_eq_false (by omega)
    simp [stateAt, List.filter, runTrace, fireDue, handleEvent, initialDockState,
      hd, e1, e2, e3, e4]

theorem c4_witness :
    stateAt 300 [(0, DockEvent.enterDetector),
        (100, DockEvent.leaveDock NotifyType.nonlinear)] 401 =
      ⟨false, []⟩ :=
  (c4_hide_at_deadline 300 100 401 NotifyType.nonlinear (by decide)).2 (by omega)

/-- C1 counterexample: `hide_timeout = 300`; enter at 0, qualifying leave at
100 (deadline 400), re-entry at 350 — strictly before the deadline — yet at
time 400 the scheduled callback still fires and the dock is Hidden: re-entry
does not cancel the scheduled hide. -/
theorem c1_counterexample :
    qualifyingDetail NotifyType.nonlinear = true ∧
    (100 : Nat) ≤ 350 ∧ (350 : Nat) < 100 + 300 ∧
    (stateAt 300 [(0, .enterDetector), (100, .leaveDock .nonlinear),
        (350, .enterDetector)] 400).dockVisible = false := by
  decide

/-- C1 amended: re-entering the detector before the deadline re-shows the
dock but does not cancel the scheduled hide callback; at the deadline of the
qualifying leave the callback fires anyway and the dock transitions to
Hidden for that episode. -/
theorem c1_amended_reentry_does_not_cancel (hide_timeout t0 t1 : Nat)
    (d : NotifyType) (hd : qualifyingDetail d = true) (h01 : t0 ≤ t1)
    (h1 : t1 < t0 + hide_timeout) :
    stateAt hide_timeout
        [(0, .enterDetector), (t0, .leaveDock d), (t1, .enterDetector)]
        (t0 + hide_timeout) =
      ⟨false, []⟩ := by
  have e1 : decide ((0 : Nat) ≤ t0 + hide_timeout) = true :=
    decide_eq_true (Nat.zero_le _)
  have e2 : decide (t0 ≤ t0 + hide_timeout) = true :=
    decide_eq_true (Nat.le_add_right t0 hide_timeout)
  have e3 : decide (t1 ≤ t0 + hide_timeout) = true := decide_eq_true (by omega)
  have e4 : decide (t0 + hide_timeout ≤ t1) = false := decide_eq_false (by omega)
  have e5 : decide (t0 + hide_timeout ≤ t0 + hide_timeout) = true :=
    decide_eq_true le_rfl
  have e6 : decide (t0 + hide_timeout < t0 + hide_timeout) = false :=
    decide_eq_false (by omega)
  simp [stateAt, List.filter, runTrace, fireDue, handleEvent, initialDockState,
    hd, e1, e2, e3, e4, e5, e6]

theorem c1_amended_witness :
    stateAt 300 [(0, DockEvent.enterDetector),
        (100, DockEvent.leaveDock NotifyType.nonlinear),
        (350, DockEvent.enterDetector)] (100 + 300) =
      ⟨false, []⟩ :=
  c1_amended_reentry_does_not_cancel 300 100 350 NotifyType.nonlinear
    (by decide) (by omega) (by omega)

theorem buildEntries_go (ws : List WindowInfo) (acc : List DockEntry) :
    ws.foldl (fun acc w => if w.title.isEmpty then acc else acc ++ [entryOf w]) acc =
      acc ++ ws.filterMap (fun w => if w.title.isEmpty then none else some (entryOf w)) := by
  induction ws generalizing acc with
  | nil => simp
  | cons w rest ih =>
    simp only [List.foldl_cons, List.filterMap_cons]
    cases h : w.title.isEmpty <;> simp [h, ih, List.append_assoc]

/-- C8: a render pass skips records with empty titles and produces exactly one
entry per record with a non-empty title, with the icon resolved from the
application identifier by case-insensitive substring match (generic
executable icon when nothing matches); on the snapshot
`[{id 1, app_id "firefox", title "Mozilla Firefox"}, {id 2, app_id "xterm", title ""}]`
the strip has exactly one entry carrying the firefox icon. -/
theorem c8_render_pass :
    (∀ (ws : List WindowInfo) (dock_box : List DockEntry) (o : Orientation),
      update_dock_ui dock_box (.ok ws) o =
        ws.filterMap (fun w =>
          if w.title = "" then none
          else some ⟨get_icon_for_app w.app_id, w.title, w.id⟩)) ∧
    update_dock_ui []
        (.ok [⟨1, "Mozilla Firefox", "firefox", true⟩, ⟨2, "", "xterm", false⟩])
        Orientation.Horizontal =
      [⟨"firefox", "Mozilla Firefox", 1⟩] ∧
    get_icon_for_app "FireFox" = "firefox" ∧
    get_icon_for_app "xterm" = "application-x-executable" := by
  refine ⟨?_, by decide, by decide, by decide⟩
  intro ws dock_box o
  show buildEntries ws = _
  rw [buildEntries, buildEntries_go]
  simp only [List.nil_append]
  congr 1
  funext w
  rcases w with ⟨i, title, ai, f⟩
  by_cases h : title = "" <;> simp [h, entryOf, String.isEmpty_iff]

/-- C9 counterexample: with a previously rendered strip of one entry, a render
pass that finds the lock poisoned does not keep the prior visual state — the
children were already cleared before the lock was taken, so the strip ends up
empty. -/
theorem c9_counterexample :
    update_dock_ui [⟨"firefox", "Mozilla Firefox", 1⟩] LockResult.poisoned
        Orientation.Horizontal ≠
      [⟨"firefox", "Mozilla Firefox", 1⟩] := by
  decide

/-- C9 amended: when the registry lock is poisoned the renderer returns early
and no failure propagates, but because `update_dock_ui` clears the strip
before taking the lock, the cycle leaves the strip empty instead of keeping
the previously rendered visual state. -/
theorem c9_amended_poison_clears_strip (prior : List DockEntry)
    (o : Orientation) :
    update_dock_ui prior LockResult.poisoned o = [] := rfl

end Swaydgets
